import Mathlib

/-!
Shallow embedding of the idle-detection and notification-delivery subsystem of
the `project_ftt_frontend` Tauri application (Rust sources under
`src/src-tauri/src/`), together with theorems settling the specification
claims about it.

Conventions of the embedding:
- Rust `u64` values (idle seconds, durations) are modelled as `Nat`.
- `std::time::Instant` values are modelled as `Nat` time points; `elapsed()`
  becomes truncated subtraction `now - start` (an `Instant` never precedes
  the start it is measured from, and Rust would panic otherwise).
- External effects are passed in explicitly: the event sink's response to an
  `emit` call, the idle source's `Result`, the file system (the set of
  existing paths), the audio device, and whether decoding/playing a given
  file succeeds.
- Rust `Result<T, String>` is `Except String T`; `Option<T>` is `Option T`.
- `HashMap<String, String>` is an association list `List (String × String)`
  read through `List.lookup`.
- Rust `str::to_uppercase` is modelled by ASCII uppercasing (`to_uppercase`
  below); every string the program matches against is ASCII.
-/

/-- ASCII uppercasing of a single character, modelling what Rust
`char::to_uppercase` does on ASCII input. -/
def asciiUpper (c : Char) : Char :=
  if 'a' ≤ c ∧ c ≤ 'z' then Char.ofNat (c.toNat - 32) else c

/-- Model of Rust `str::to_uppercase` (ASCII fragment). -/
def to_uppercase (s : String) : String :=
  String.mk (s.data.map asciiUpper)

/-! ## constants.rs -/

/-- `IDLE_THRESHOLD_SECONDS` from `constants.rs`. -/
def IDLE_THRESHOLD_SECONDS : Nat := 3

/-- `IDLE_MONITOR_INTERVAL_SECONDS` from `constants.rs`. -/
def IDLE_MONITOR_INTERVAL_SECONDS : Nat := 10

/-! ## notification_manager.rs -/

/-- `NotificationManager::get_channel_id`: maps a notification type string to
a channel id, uppercasing the input first and defaulting to the INFO
channel. -/
def get_channel_id (notification_type : String) : String :=
  match to_uppercase notification_type with
  | "ERROR" => "time_tracker_error"
  | "CRITICAL" => "time_tracker_error"
  | "WARNING" => "time_tracker_warning"
  | "SUCCESS" => "time_tracker_success"
  | "INFO" => "time_tracker_info"
  | _ => "time_tracker_info"

/-! ## commands.rs: show_notification -/

/-- The title-suffix match inside `commands::show_notification`; unlike
`get_channel_id` it matches the raw string, without uppercasing. -/
def title_suffix (notification_type : String) : String :=
  match notification_type with
  | "ERROR" => "Error"
  | "CRITICAL" => "Error"
  | "WARNING" => "Warning"
  | "SUCCESS" => "Success"
  | "INFO" => "Info"
  | _ => "Notification"

/-- The JSON payload handed to `app.emit("show-notification-with-channel", _)`. -/
structure NotificationPayload where
  title : String
  body : String
  channelId : String
  notificationType : String
deriving DecidableEq

/-! ## sound_manager.rs -/

/-- `SoundSettings` from `sound_manager.rs` (the `[settings]` config section). -/
structure SoundSettings where
  enabled : Bool
  default_volume : Float

/-- `SoundFallbacks` from `sound_manager.rs` (the `[fallbacks]` config section). -/
structure SoundFallbacks where
  default : String

/-- `SoundConfig` from `sound_manager.rs`: the parsed `config.toml`. -/
structure SoundConfig where
  settings : SoundSettings
  sounds : List (String × String)
  fallbacks : SoundFallbacks

/-- `NotificationSoundType` from `sound_manager.rs`. -/
inductive NotificationSoundType where
  | Info
  | Warning
  | Error
  | Success
  | Critical
  | Other
deriving DecidableEq

/-- The `Display` impl of `NotificationSoundType`. -/
def NotificationSoundType.toStr : NotificationSoundType → String
  | .Info => "INFO"
  | .Warning => "WARNING"
  | .Error => "ERROR"
  | .Success => "SUCCESS"
  | .Critical => "CRITICAL"
  | .Other => "OTHER"

/-- The `From<&str>` impl of `NotificationSoundType`: uppercase the input,
map unknown values to `Other`. -/
def NotificationSoundType.fromStr (s : String) : NotificationSoundType :=
  match to_uppercase s with
  | "INFO" => .Info
  | "WARNING" => .Warning
  | "ERROR" => .Error
  | "SUCCESS" => .Success
  | "CRITICAL" => .Critical
  | _ => .Other

/-- The mutable state of a `SoundManager`. `has_output` models whether
`output_stream_handle` is `Some` (the audio output stream was acquired). -/
structure SoundManager where
  config : Option SoundConfig
  has_output : Bool
  sounds_dir : String

/-- `SoundManager::is_enabled`: config's `enabled`, defaulting to `true`
when no config is loaded. -/
def SoundManager.is_enabled (m : SoundManager) : Bool :=
  (m.config.map fun config => config.settings.enabled).getD true

/-- `SoundManager::set_enabled`: writes `enabled` into the loaded config,
doing nothing to the state when no config is loaded. -/
def SoundManager.set_enabled (m : SoundManager) (enabled : Bool) : SoundManager :=
  match m.config with
  | some config =>
      { m with config := some { config with settings := { config.settings with enabled := enabled } } }
  | none => m

/-- `PathBuf::join` for the paths this program builds. -/
def pathJoin (dir name : String) : String := dir ++ "/" ++ name

/-- `SoundManager::get_sound_file_path`. `fs` is the set of paths that exist
on disk (`Path::exists`). Returns `none` either when no config is loaded or
when the resolution chain ends in the generated-tone fallback. -/
def SoundManager.get_sound_file_path (fs : List String) (m : SoundManager)
    (sound_type : NotificationSoundType) : Option String :=
  match m.config with
  | none => none
  | some config =>
    let per_type : Option String :=
      match config.sounds.lookup sound_type.toStr with
      | some sound_file_name =>
          let sound_path := pathJoin m.sounds_dir sound_file_name
          if fs.contains sound_path then some sound_path else none
      | none => none
    match per_type with
    | some sound_path => some sound_path
    | none =>
        if config.fallbacks.default == "generated" then
          none
        else
          let fallback_path := pathJoin m.sounds_dir config.fallbacks.default
          if fs.contains fallback_path then some fallback_path else none

/-- Observable outcome of `SoundManager::play_notification_sound`:
which playback operations were invoked. -/
inductive PlaybackTrace where
  /-- Early return: sound playback disabled, nothing invoked. -/
  | nothing
  /-- `play_sound_file path` was invoked and succeeded. -/
  | filePlayed (path : String)
  /-- `play_sound_file path` was invoked and failed, so
  `generate_beep_sound` was invoked as fallback. -/
  | fileFailedThenBeep (path : String)
  /-- No file resolved; `generate_beep_sound` was invoked (synthesis). -/
  | beep
deriving DecidableEq

/-- `SoundManager::play_notification_sound`. `play_file_ok p` tells whether
opening, decoding and starting playback of file `p` succeeds
(`play_sound_file`'s boolean result). -/
def SoundManager.play_notification_sound (fs : List String)
    (play_file_ok : String → Bool) (m : SoundManager)
    (notification_type : String) : PlaybackTrace :=
  if !m.is_enabled then
    .nothing
  else
    let sound_type := NotificationSoundType.fromStr notification_type
    match m.get_sound_file_path fs sound_type with
    | some path =>
        if play_file_ok path then .filePlayed path else .fileFailedThenBeep path
    | none => .beep

/-- State of the sound configuration file on disk, as `load_config`
distinguishes it: absent, present but unreadable, present but not valid
TOML, or present and parsed. -/
inductive ConfigFile where
  | missing
  | unreadable (e : String)
  | malformed (e : String)
  | parsed (config : SoundConfig)

/-- `SoundManager::load_config`: a missing file is not an error (defaults
stay in force); read and parse failures are errors. -/
def SoundManager.load_config (cf : ConfigFile) (m : SoundManager) :
    Except String SoundManager :=
  match cf with
  | .missing => .ok m
  | .unreadable e => .error ("Failed to read sound config: " ++ e)
  | .malformed e => .error ("Failed to parse sound config: " ++ e)
  | .parsed config => .ok { m with config := some config }

/-- `SoundManager::initialize` (renamed `init`: the source name is not
usable here): load the config, then acquire the audio output stream.
`audio` is the result of `OutputStream::try_default()`. -/
def SoundManager.init (cf : ConfigFile) (audio : Except String Unit)
    (m : SoundManager) : Except String SoundManager :=
  match m.load_config cf with
  | .error e => .error e
  | .ok m1 =>
      match audio with
      | .ok _ => .ok { m1 with has_output := true }
      | .error e => .error ("Failed to initialize audio output: " ++ e)

/-- `commands::play_notification_sound` (free function): builds a fresh
`SoundManager`, initializes it, and plays. An initialization failure is
absorbed (`Ok` with no playback); otherwise the playback trace is recorded
and the result is still `Ok`. The first component is `none` exactly when
`SoundManager::play_notification_sound` was never invoked. -/
def play_notification_sound_cmd (cf : ConfigFile) (audio : Except String Unit)
    (fs : List String) (play_file_ok : String → Bool) (sounds_dir : String)
    (notification_type : String) : Option PlaybackTrace × Except String Unit :=
  let m : SoundManager := { config := none, has_output := false, sounds_dir := sounds_dir }
  match m.init cf audio with
  | .error _ => (none, .ok ())
  | .ok m1 => (some (m1.play_notification_sound fs play_file_ok notification_type), .ok ())

/-- Observable outcome of one `commands::show_notification` call. -/
structure ShowNotificationTrace where
  /-- The payload handed to `app.emit("show-notification-with-channel", _)`
  (always constructed and handed to the sink). -/
  sinkPayload : NotificationPayload
  /-- `some r` when `play_notification_sound` ran, with its outcome;
  `none` when it was never reached. -/
  soundTrace : Option (Option PlaybackTrace × Except String Unit)
  /-- `some (title, body)` when the direct native-notification fallback was
  attempted, with the values passed to the builder; `none` otherwise. -/
  nativeAttempt : Option (String × String)
  /-- The `Result<(), String>` returned to the caller. -/
  result : Except String Unit

/-- `commands::show_notification`. `emit_err` is the event sink's response
to the `app.emit` call: `none` if delivery is accepted, `some e` if it is
rejected with error `e` (in which case the `?` operator propagates the
mapped error and neither sound playback nor the native fallback run). -/
def show_notification (emit_err : Option String) (cf : ConfigFile)
    (audio : Except String Unit) (fs : List String)
    (play_file_ok : String → Bool) (sounds_dir : String)
    (_title body notification_type : String) : ShowNotificationTrace :=
  let channel_id := get_channel_id notification_type
  let suffix := title_suffix notification_type
  let full_title := "Time Tracker - " ++ suffix
  let payload : NotificationPayload :=
    { title := full_title, body := body, channelId := channel_id,
      notificationType := notification_type }
  match emit_err with
  | some e =>
      { sinkPayload := payload, soundTrace := none, nativeAttempt := none,
        result := .error ("Failed to emit notification event: " ++ e) }
  | none =>
      { sinkPayload := payload,
        soundTrace := some (play_notification_sound_cmd cf audio fs play_file_ok
          sounds_dir notification_type),
        nativeAttempt := some (full_title, body),
        result := .ok () }

/-! ## lib.rs: idle monitor -/

/-- `IdleMonitorState` from `lib.rs`. `session_start` is an `Instant`,
modelled as a `Nat` time point. -/
structure IdleMonitorState where
  last_idle_state : Bool
  session_start : Nat
deriving DecidableEq

/-- `IdleMonitorState::new`: initially not idle, session started now. -/
def IdleMonitorState.new (now : Nat) : IdleMonitorState :=
  { last_idle_state := false, session_start := now }

/-- An event emitted by the idle monitor loop: `idle-status-changed`
(edge-triggered transition) or `idle-status-update` (periodic). The
RFC 3339 timestamp fields carry the tick's time point. -/
inductive IdleEvent where
  | statusChanged (is_idle : Bool) (idle_time_seconds : Nat)
      (activity_state : String) (timestamp : Nat)
      (session_duration_seconds : Nat)
  | statusUpdate (is_idle : Bool) (idle_time_seconds : Nat)
      (last_update : Nat) (session_duration_seconds : Nat)
deriving DecidableEq

/-- Whether an idle event is an edge-triggered `idle-status-changed` event. -/
def IdleEvent.isChanged : IdleEvent → Bool
  | .statusChanged .. => true
  | .statusUpdate .. => false

/-- Whether an idle event is a periodic `idle-status-update` event. -/
def IdleEvent.isUpdate : IdleEvent → Bool
  | .statusChanged .. => false
  | .statusUpdate .. => true

/-- The `is_idle` field carried by an idle event. -/
def IdleEvent.isIdleOf : IdleEvent → Bool
  | .statusChanged is_idle .. => is_idle
  | .statusUpdate is_idle .. => is_idle

/-- The `session_duration_seconds` field carried by an idle event. -/
def IdleEvent.durationOf : IdleEvent → Nat
  | .statusChanged _ _ _ _ d => d
  | .statusUpdate _ _ _ d => d

/-- One iteration of the `start_idle_monitor` loop body in `lib.rs`.
`idle_result` is `UserIdle::get_time()` mapped to seconds; `now` is the
tick's time point. On a failed sample the error is logged and the state is
untouched; on a successful sample a transition event is emitted exactly
when the classification differs from the previous tick's, `session_start`
is reset exactly on a transition to active, and a periodic status event is
always emitted. -/
def tick (idle_result : Except String Nat) (now : Nat)
    (st : IdleMonitorState) : IdleMonitorState × List IdleEvent :=
  match idle_result with
  | .error _ => (st, [])
  | .ok idle_seconds =>
    let is_idle : Bool := decide (idle_seconds ≥ IDLE_THRESHOLD_SECONDS)
    let (st1, transition_events) :=
      if is_idle != st.last_idle_state then
        let activity_state := if is_idle then "became_idle" else "became_active"
        let ev := IdleEvent.statusChanged is_idle idle_seconds activity_state
          now (now - st.session_start)
        let st' := { st with last_idle_state := is_idle }
        -- Reset session start when becoming active again
        let st'' := if is_idle then st' else { st' with session_start := now }
        (st'', [ev])
      else
        (st, [])
    -- Always emit periodic status updates
    let debug_ev := IdleEvent.statusUpdate is_idle idle_seconds now
      (now - st1.session_start)
    (st1, transition_events ++ [debug_ev])

/-- Runs the monitor loop over a finite list of (sample, time) pairs,
collecting all emitted events in order. -/
def runMonitor (st : IdleMonitorState) :
    List (Except String Nat × Nat) → IdleMonitorState × List IdleEvent
  | [] => (st, [])
  | (s, t) :: rest =>
      let (st1, evs) := tick s t st
      let (st2, evs2) := runMonitor st1 rest
      (st2, evs ++ evs2)

/-! ## commands.rs: idle queries -/

/-- `IdleStatus` from `commands.rs`, timestamps as `Nat` time points. -/
structure IdleStatus where
  is_idle : Bool
  idle_time_seconds : Nat
  last_update : Nat
  session_start : Nat
deriving DecidableEq

/-- `commands::get_idle_status`: classifies the sampled idle time against
`IDLE_THRESHOLD_SECONDS` (both timestamp fields are "now"). -/
def get_idle_status (idle_result : Except String Nat) (now : Nat) :
    Except String IdleStatus :=
  match idle_result with
  | .ok idle_seconds =>
      .ok { is_idle := decide (idle_seconds ≥ IDLE_THRESHOLD_SECONDS),
            idle_time_seconds := idle_seconds,
            last_update := now, session_start := now }
  | .error e => .error ("Failed to get idle status: " ++ e)

/-- `commands::is_user_idle`: the same classification, returned directly. -/
def is_user_idle (idle_result : Except String Nat) : Except String Bool :=
  match idle_result with
  | .ok idle_seconds => .ok (decide (idle_seconds ≥ IDLE_THRESHOLD_SECONDS))
  | .error e => .error ("Failed to check idle status: " ++ e)

/-! ## Theorems settling the claims -/

/-- C1 (counterexample): at a concrete input where the event sink rejects
delivery of the show-notification-with-channel event, `show_notification`
does not return `Ok` — the `?` operator propagates the emit failure, so the
claim that the failure is absorbed and the function still returns success
is false. -/
theorem show_notification_emit_failure_not_ok :
    (show_notification (some "boom") .missing (.ok ()) [] (fun _ => true)
      "sounds" "t" "b" "INFO").result ≠ .ok () := by
  intro h
  exact Except.noConfusion h

/-- C1 (amended): when emitting the show-notification-with-channel event
fails with error `e`, `show_notification` returns
`Err ("Failed to emit notification event: " ++ e)` to its caller — the
failure is propagated, not absorbed — and neither sound playback nor the
direct native-display fallback is attempted; only when the emit succeeds
are all later failures (sound, native display) absorbed, with the function
returning `Ok`. -/
theorem show_notification_emit_failure_propagates
    (e : String) (cf : ConfigFile) (audio : Except String Unit)
    (fs : List String) (pfk : String → Bool) (dir t b nt : String) :
    (show_notification (some e) cf audio fs pfk dir t b nt).result
        = .error ("Failed to emit notification event: " ++ e)
      ∧ (show_notification (some e) cf audio fs pfk dir t b nt).soundTrace = none
      ∧ (show_notification (some e) cf audio fs pfk dir t b nt).nativeAttempt = none
      ∧ (show_notification none cf audio fs pfk dir t b nt).result = .ok () :=
  ⟨rfl, rfl, rfl, rfl⟩

/-- C2 (counterexample): the lowercase input "error" is not one of the five
exact known strings, yet its resolved channel id is the ERROR channel and
not the INFO default — channel resolution uppercases its input before
matching, so it is not case-sensitive. (The resolved title for "error" is
the generic one, as only the title match is case-sensitive.) -/
theorem get_channel_id_lowercase_counterexample :
    get_channel_id "error" = "time_tracker_error"
      ∧ "time_tracker_error" ≠ "time_tracker_info"
      ∧ title_suffix "error" = "Notification" := by
  refine ⟨by decide, by decide, by decide⟩

/-- C2 (amended): the title match is case-sensitive — any input not exactly
equal to one of the five known strings gets the generic title
"Notification" — but channel resolution uppercases its input first, so an
input resolves to the INFO default channel exactly when its uppercasing
falls outside the known set; in particular the lowercase variant "error"
resolves to the ERROR channel (with generic title), while exactly "ERROR"
and "CRITICAL" share that channel and the title "Error". -/
theorem notification_router_case_handling
    (s t : String)
    (hTitle : s ∉ ["ERROR", "CRITICAL", "WARNING", "SUCCESS", "INFO"])
    (hChan : to_uppercase t ∉ ["ERROR", "CRITICAL", "WARNING", "SUCCESS", "INFO"]) :
    title_suffix s = "Notification"
      ∧ get_channel_id t = "time_tracker_info"
      ∧ get_channel_id "error" = "time_tracker_error"
      ∧ get_channel_id "ERROR" = "time_tracker_error"
      ∧ get_channel_id "CRITICAL" = "time_tracker_error"
      ∧ title_suffix "ERROR" = "Error"
      ∧ title_suffix "CRITICAL" = "Error" := by
  refine ⟨?_, ?_, by decide, by decide, by decide, by decide, by decide⟩
  · unfold title_suffix
    split <;> simp_all
  · unfold get_channel_id
    split <;> simp_all

/-- C2 (witness): the amended router behaviour evaluated at the concrete
inputs "unknown-garbage" (title side) and "lol" (channel side). -/
theorem notification_router_case_handling_witness :
    title_suffix "unknown-garbage" = "Notification"
      ∧ get_channel_id "lol" = "time_tracker_info"
      ∧ get_channel_id "error" = "time_tracker_error"
      ∧ get_channel_id "ERROR" = "time_tracker_error"
      ∧ get_channel_id "CRITICAL" = "time_tracker_error"
      ∧ title_suffix "ERROR" = "Error"
      ∧ title_suffix "CRITICAL" = "Error" :=
  notification_router_case_handling "unknown-garbage" "lol" (by decide) (by decide)

/-- C3 (counterexample): with a working audio device and the configuration
file present but unparsable, the notification-sound command performs no
playback at all (`none`: `SoundManager::play_notification_sound` is never
reached), whereas the same environment with a missing configuration file
produces a generated tone — so an unparsable config does not degrade to
the missing-config defaults and no sound is produced. -/
theorem malformed_config_counterexample :
    (play_notification_sound_cmd (.malformed "bad toml") (.ok ()) []
        (fun _ => false) "sounds" "INFO").fst = none
      ∧ (play_notification_sound_cmd .missing (.ok ()) []
        (fun _ => false) "sounds" "INFO").fst = some .beep :=
  ⟨rfl, rfl⟩

/-- C3 (amended): an unparsable sound configuration file makes
`SoundManager` initialization fail, so the command-level wrapper absorbs
the error and returns `Ok` without attempting any playback — unlike a
missing configuration file, which degrades to defaults (enabled, generated
tone); in both cases the overall notification request still succeeds. -/
theorem malformed_config_absorbed_no_playback
    (e : String) (audio : Except String Unit) (fs : List String)
    (pfk : String → Bool) (dir t b nt : String) :
    play_notification_sound_cmd (.malformed e) audio fs pfk dir nt
        = (none, .ok ())
      ∧ play_notification_sound_cmd .missing (.ok ()) fs pfk dir nt
        = (some .beep, .ok ())
      ∧ (show_notification none (.malformed e) audio fs pfk dir t b nt).result
        = .ok () :=
  ⟨rfl, rfl, rfl⟩

/-- C8 (counterexample): the string "Error" lies outside the known set
(the exact five strings ERROR, CRITICAL, WARNING, SUCCESS, INFO), yet it
does not resolve to the INFO default channel — it resolves to the ERROR
channel — so the claim's clause that any string outside the known set
resolves to the INFO default is false. -/
theorem notification_router_info_default_counterexample :
    "Error" ∉ ["ERROR", "CRITICAL", "WARNING", "SUCCESS", "INFO"]
      ∧ get_channel_id "Error" = "time_tracker_error"
      ∧ get_channel_id "Error" ≠ "time_tracker_info" := by
  refine ⟨by decide, by decide, by decide⟩

/-- C8 (amended): the notification router is total — every input string
resolves to one of the four real channel ids, never failing — resolution
of "ERROR" and of "CRITICAL" agree on both channel id and title, and a
string resolves to the INFO default channel whenever its uppercasing
falls outside the known set (so "unknown-garbage" gets the INFO default
with the generic title); strings outside the exact known set whose
uppercasing lands inside it, such as "Error", instead resolve to that
type's channel. -/
theorem notification_router_total (s : String) :
    (get_channel_id s = "time_tracker_error"
        ∨ get_channel_id s = "time_tracker_warning"
        ∨ get_channel_id s = "time_tracker_success"
        ∨ get_channel_id s = "time_tracker_info")
      ∧ get_channel_id "ERROR" = get_channel_id "CRITICAL"
      ∧ title_suffix "ERROR" = title_suffix "CRITICAL"
      ∧ get_channel_id "unknown-garbage" = "time_tracker_info"
      ∧ title_suffix "unknown-garbage" = "Notification"
      ∧ get_channel_id "Error" = "time_tracker_error"
      ∧ (∀ u, to_uppercase u ∉ ["ERROR", "CRITICAL", "WARNING", "SUCCESS", "INFO"] →
          get_channel_id u = "time_tracker_info") := by
  refine ⟨?_, by decide, by decide, by decide, by decide, by decide, ?_⟩
  · unfold get_channel_id
    split <;> simp
  · intro u hu
    unfold get_channel_id
    split <;> simp_all

/-- C8 (witness): the amended router's universal INFO-default clause
evaluated at the concrete input "unknown-garbage", whose uppercasing lies
outside the known set. -/
theorem notification_router_total_witness :
    to_uppercase "unknown-garbage" ∉ ["ERROR", "CRITICAL", "WARNING", "SUCCESS", "INFO"]
      ∧ get_channel_id "unknown-garbage" = "time_tracker_info" :=
  ⟨by decide,
   (notification_router_total "unknown-garbage").2.2.2.2.2.2 "unknown-garbage" (by decide)⟩

/-- C9: `show_notification` ignores its caller-supplied title argument:
two invocations differing only in the title produce identical observable
traces — the same show-notification-with-channel payload, the same sound
behaviour, the same native-notification attempt and the same result — and
the displayed title is always "Time Tracker - <suffix>" derived solely
from the notification type. -/
theorem show_notification_ignores_title
    (emit_err : Option String) (cf : ConfigFile) (audio : Except String Unit)
    (fs : List String) (pfk : String → Bool) (dir t1 t2 b nt : String) :
    show_notification emit_err cf audio fs pfk dir t1 b nt
        = show_notification emit_err cf audio fs pfk dir t2 b nt
      ∧ (show_notification emit_err cf audio fs pfk dir t1 b nt).sinkPayload.title
        = "Time Tracker - " ++ title_suffix nt
      ∧ (show_notification emit_err cf audio fs pfk dir t1 b nt).nativeAttempt
        = emit_err.rec (some ("Time Tracker - " ++ title_suffix nt, b)) (fun _ => none) := by
  refine ⟨rfl, ?_, ?_⟩ <;> cases emit_err <;> rfl

/-- C10: with no sound configuration loaded, `SoundManager::set_enabled`
is a no-op on the observable state: for either boolean argument the state
is unchanged, `is_enabled` still reports `true`, and
`play_notification_sound` still attempts playback (a generated tone, as no
file can resolve without a config) — in particular `set_enabled false`
does not disable sound. -/
theorem set_enabled_noop_without_config
    (m : SoundManager) (b : Bool) (fs : List String)
    (pfk : String → Bool) (nt : String) (h : m.config = none) :
    m.set_enabled b = m
      ∧ (m.set_enabled b).is_enabled = true
      ∧ (m.set_enabled b).play_notification_sound fs pfk nt = .beep := by
  have h1 : m.set_enabled b = m := by
    unfold SoundManager.set_enabled
    rw [h]
  refine ⟨h1, ?_, ?_⟩
  · rw [h1]
    unfold SoundManager.is_enabled
    rw [h]
    rfl
  · rw [h1]
    unfold SoundManager.play_notification_sound
    have h2 : m.is_enabled = true := by
      unfold SoundManager.is_enabled
      rw [h]
      rfl
    rw [h2]
    unfold SoundManager.get_sound_file_path
    rw [h]
    rfl

/-- C4: sound resolution follows the ordered fallback chain for every
notification type: with the loaded config disabled nothing is played at
all; otherwise the per-type mapped file wins when it exists on disk; when
it does not resolve, the sentinel fallback "generated" selects synthesis;
a non-sentinel fallback file is selected when it exists; otherwise
synthesis — and playback follows the selection (a resolved file is played,
falling back to a generated tone if file playback fails; no resolution
means a generated tone). In particular, with INFO mapped to a missing
file and fallback "generated", resolution selects synthesis rather than
erroring. -/
theorem sound_resolution_fallback_chain
    (fs : List String) (pfk : String → Bool) (m : SoundManager)
    (c : SoundConfig) (nt : String) (h : m.config = some c) :
    (c.settings.enabled = false → m.play_notification_sound fs pfk nt = .nothing)
      ∧ (∀ name, c.sounds.lookup (NotificationSoundType.fromStr nt).toStr = some name →
          pathJoin m.sounds_dir name ∈ fs →
          m.get_sound_file_path fs (NotificationSoundType.fromStr nt)
            = some (pathJoin m.sounds_dir name))
      ∧ ((∀ name, c.sounds.lookup (NotificationSoundType.fromStr nt).toStr = some name →
            pathJoin m.sounds_dir name ∉ fs) →
          (c.fallbacks.default = "generated" →
              m.get_sound_file_path fs (NotificationSoundType.fromStr nt) = none)
          ∧ (c.fallbacks.default ≠ "generated" →
              pathJoin m.sounds_dir c.fallbacks.default ∈ fs →
              m.get_sound_file_path fs (NotificationSoundType.fromStr nt)
                = some (pathJoin m.sounds_dir c.fallbacks.default))
          ∧ (c.fallbacks.default ≠ "generated" →
              pathJoin m.sounds_dir c.fallbacks.default ∉ fs →
              m.get_sound_file_path fs (NotificationSoundType.fromStr nt) = none))
      ∧ (c.settings.enabled = true →
          m.play_notification_sound fs pfk nt
            = match m.get_sound_file_path fs (NotificationSoundType.fromStr nt) with
              | some p => if pfk p then .filePlayed p else .fileFailedThenBeep p
              | none => .beep)
      ∧ (SoundManager.mk
            (some ⟨⟨true, 0.5⟩, [("INFO", "missing.wav")], ⟨"generated"⟩⟩) true "sounds"
          ).play_notification_sound [] pfk "INFO" = .beep := by
  have hen : m.is_enabled = c.settings.enabled := by
    unfold SoundManager.is_enabled
    rw [h]
    rfl
  refine ⟨?_, ?_, ?_, ?_, rfl⟩
  · intro hc
    unfold SoundManager.play_notification_sound
    rw [hen, hc]
    rfl
  · intro name hname hcont
    unfold SoundManager.get_sound_file_path
    rw [h]
    simp [hname, hcont]
  · intro hmiss
    refine ⟨?_, ?_, ?_⟩
    · intro hgen
      unfold SoundManager.get_sound_file_path
      rw [h]
      cases hl : c.sounds.lookup (NotificationSoundType.fromStr nt).toStr with
      | none => simp [hl, hgen]
      | some name => simp [hl, hmiss name hl, hgen]
    · intro hgen hcont
      unfold SoundManager.get_sound_file_path
      rw [h]
      cases hl : c.sounds.lookup (NotificationSoundType.fromStr nt).toStr with
      | none => simp [hl, hgen, hcont]
      | some name => simp [hl, hmiss name hl, hgen, hcont]
    · intro hgen hcont
      unfold SoundManager.get_sound_file_path
      rw [h]
      cases hl : c.sounds.lookup (NotificationSoundType.fromStr nt).toStr with
      | none => simp [hl, hgen, hcont]
      | some name => simp [hl, hmiss name hl, hgen, hcont]
  · intro hc
    unfold SoundManager.play_notification_sound
    rw [hen, hc]
    simp

/-- C4 (witness): the chain evaluated concretely — with sound disabled in
the config nothing at all is played, and with WARNING mapped to an
existing warn.wav the per-type file is selected. -/
theorem sound_resolution_fallback_chain_witness :
    (SoundManager.mk (some ⟨⟨false, 0.5⟩, [], ⟨"generated"⟩⟩) true "sounds"
        ).play_notification_sound [] (fun _ => true) "INFO" = .nothing
      ∧ (SoundManager.mk (some ⟨⟨true, 0.5⟩, [("WARNING", "warn.wav")], ⟨"generated"⟩⟩)
          true "sounds").get_sound_file_path ["sounds/warn.wav"]
          (NotificationSoundType.fromStr "WARNING")
        = some (pathJoin "sounds" "warn.wav") :=
  ⟨(sound_resolution_fallback_chain [] (fun _ => true)
      (SoundManager.mk (some ⟨⟨false, 0.5⟩, [], ⟨"generated"⟩⟩) true "sounds")
      ⟨⟨false, 0.5⟩, [], ⟨"generated"⟩⟩ "INFO" rfl).1 rfl,
   ((sound_resolution_fallback_chain ["sounds/warn.wav"] (fun _ => true)
      (SoundManager.mk (some ⟨⟨true, 0.5⟩, [("WARNING", "warn.wav")], ⟨"generated"⟩⟩)
        true "sounds")
      ⟨⟨true, 0.5⟩, [("WARNING", "warn.wav")], ⟨"generated"⟩⟩ "WARNING" rfl).2.1)
     "warn.wav" rfl (by decide)⟩

/-- C5: the idle monitor is edge-triggered — a tick with a successful
sample emits a transition event exactly when the classification differs
from the previous tick's value (1 when different, 0 when equal), and it
always emits exactly one periodic status event; on the sample sequence
[2,2,5,5,5,2] with threshold 3 the trace contains exactly two transition
events (became_idle at the third sample, became_active at the sixth) and
exactly six periodic status events. -/
theorem idle_monitor_edge_triggered (n now : Nat) (st : IdleMonitorState) :
    ((tick (.ok n) now st).snd.countP IdleEvent.isChanged
        = if decide (n ≥ IDLE_THRESHOLD_SECONDS) != st.last_idle_state then 1 else 0)
      ∧ (tick (.ok n) now st).snd.countP IdleEvent.isUpdate = 1
      ∧ (runMonitor (IdleMonitorState.new 0)
          [(.ok 2, 10), (.ok 2, 20), (.ok 5, 30),
           (.ok 5, 40), (.ok 5, 50), (.ok 2, 60)]).snd
        = [.statusUpdate false 2 10 10,
           .statusUpdate false 2 20 20,
           .statusChanged true 5 "became_idle" 30 30,
           .statusUpdate true 5 30 30,
           .statusUpdate true 5 40 40,
           .statusUpdate true 5 50 50,
           .statusChanged false 2 "became_active" 60 60,
           .statusUpdate false 2 60 0]
      ∧ (runMonitor (IdleMonitorState.new 0)
          [(.ok 2, 10), (.ok 2, 20), (.ok 5, 30),
           (.ok 5, 40), (.ok 5, 50), (.ok 2, 60)]).snd.countP IdleEvent.isChanged = 2
      ∧ (runMonitor (IdleMonitorState.new 0)
          [(.ok 2, 10), (.ok 2, 20), (.ok 5, 30),
           (.ok 5, 40), (.ok 5, 50), (.ok 2, 60)]).snd.countP IdleEvent.isUpdate = 6 := by
  refine ⟨?_, ?_, by decide, by decide, by decide⟩ <;>
    cases hb : decide (n ≥ IDLE_THRESHOLD_SECONDS) <;>
      cases hl : st.last_idle_state <;>
        simp [tick, hb, hl, IdleEvent.isChanged, IdleEvent.isUpdate,
          List.countP_cons, List.countP_nil, List.countP_append]

/-- C6: idle classification is the pure predicate
`idle_seconds ≥ IDLE_THRESHOLD_SECONDS` with the threshold fixed at 3:
every event a monitor tick emits carries exactly this classification, and
`get_idle_status` and `is_user_idle` both return it for the same sample. -/
theorem idle_classification_consistent (n now tq : Nat) (st : IdleMonitorState) :
    IDLE_THRESHOLD_SECONDS = 3
      ∧ is_user_idle (.ok n) = .ok (decide (n ≥ IDLE_THRESHOLD_SECONDS))
      ∧ (get_idle_status (.ok n) tq).map (fun s => s.is_idle)
          = .ok (decide (n ≥ IDLE_THRESHOLD_SECONDS))
      ∧ ((tick (.ok n) now st).snd.all
          fun ev => ev.isIdleOf == decide (n ≥ IDLE_THRESHOLD_SECONDS)) = true := by
  refine ⟨rfl, rfl, rfl, ?_⟩
  cases hb : decide (n ≥ IDLE_THRESHOLD_SECONDS) <;>
    cases hl : st.last_idle_state <;>
      simp [tick, hb, hl, IdleEvent.isIdleOf]

/-- C7: `session_start` is reset to the tick's current time exactly when a
tick produces an idle-to-active transition (and the periodic event emitted
on that same tick then reports session duration 0); on every other tick —
transition to idle, non-transition tick, failed sample — it is unchanged,
the periodic event reports `now - session_start`, and that reported
duration grows monotonically with the tick time until the next
activation. -/
theorem session_start_reset_policy
    (n now now' : Nat) (st : IdleMonitorState) (e : String) :
    (st.last_idle_state = true → n < IDLE_THRESHOLD_SECONDS →
        (tick (.ok n) now st).fst.session_start = now
        ∧ (tick (.ok n) now st).snd.getLast? = some (.statusUpdate false n now 0))
      ∧ (¬(st.last_idle_state = true ∧ n < IDLE_THRESHOLD_SECONDS) →
          (tick (.ok n) now st).fst.session_start = st.session_start
          ∧ (tick (.ok n) now st).snd.getLast?
              = some (.statusUpdate (decide (n ≥ IDLE_THRESHOLD_SECONDS)) n now
                  (now - st.session_start))
          ∧ (now ≤ now' →
              ((tick (.ok n) now st).snd.getLast?.map IdleEvent.durationOf).getD 0
                ≤ ((tick (.ok n) now' st).snd.getLast?.map IdleEvent.durationOf).getD 0))
      ∧ tick (.error e) now st = (st, []) := by
  refine ⟨?_, ?_, rfl⟩
  · intro hl hn
    have hb : decide (n ≥ IDLE_THRESHOLD_SECONDS) = false := by
      simp [Nat.not_le_of_lt hn]
    simp [tick, hb, hl]
  · intro hcon
    have hcase : st.last_idle_state = false ∨ n ≥ IDLE_THRESHOLD_SECONDS := by
      rcases Nat.lt_or_ge n IDLE_THRESHOLD_SECONDS with h | h
      · cases hl : st.last_idle_state
        · exact Or.inl rfl
        · exact absurd ⟨hl, h⟩ hcon
      · exact Or.inr h
    rcases hcase with hl | hn
    · cases hb : decide (n ≥ IDLE_THRESHOLD_SECONDS) <;>
        simp [tick, hb, hl, IdleEvent.durationOf] <;>
          omega
    · have hb : decide (n ≥ IDLE_THRESHOLD_SECONDS) = true := by simp [hn]
      cases hl : st.last_idle_state <;>
        simp [tick, hb, hl, IdleEvent.durationOf] <;>
          omega

/-- C7 (witness): a monitor that was idle (session started at 30) sampling
2 idle seconds at time 60 resets `session_start` to 60, and the periodic
event emitted on that tick reports session duration 0. -/
theorem session_start_reset_policy_witness :
    (tick (.ok 2) 60 ⟨true, 30⟩).fst.session_start = 60
      ∧ (tick (.ok 2) 60 ⟨true, 30⟩).snd.getLast?
        = some (.statusUpdate false 2 60 0) :=
  (session_start_reset_policy 2 60 70 ⟨true, 30⟩ "e").1 rfl (by decide)

/-- C10 (witness): the no-op behaviour of `set_enabled false` evaluated on
a concrete config-less manager. -/
theorem set_enabled_noop_without_config_witness :
    (SoundManager.mk none false "sounds").set_enabled false
        = SoundManager.mk none false "sounds"
      ∧ ((SoundManager.mk none false "sounds").set_enabled false).is_enabled = true
      ∧ ((SoundManager.mk none false "sounds").set_enabled false).play_notification_sound
          [] (fun _ => true) "INFO" = .beep :=
  set_enabled_noop_without_config (SoundManager.mk none false "sounds") false []
    (fun _ => true) "INFO" rfl
